import Mathlib

/-!
Shallow embedding of the `winrt-toast-reborn` crate: the toast content
model, its XML serializer, and the event-translation layer, together with
theorems checking the natural-language specification against the code.

The XML document produced by `ToastManager::show` is modelled as a pure
element tree; each Rust `write_to_element` method (which sets attributes on
a mutable `XmlElement`) is modelled as a function producing the list of
attribute pairs in the order they are set.
-/

set_option maxHeartbeats 1000000

namespace WinToast

/-- An XML element: tag name, attribute list (in the order the code sets
them), child elements (in document order), and inner text. -/
inductive XmlElement where
  | mk (name : String) (attrs : List (String × String))
      (children : List XmlElement) (inner : String)

/-- Tag name of an element. -/
def XmlElement.name : XmlElement → String
  | .mk n _ _ _ => n

/-- Attribute list of an element. -/
def XmlElement.attrs : XmlElement → List (String × String)
  | .mk _ a _ _ => a

/-- Child elements of an element. -/
def XmlElement.children : XmlElement → List XmlElement
  | .mk _ _ c _ => c

/-- Value of attribute `k` on an element, if set. -/
def XmlElement.attr (el : XmlElement) (k : String) : Option String :=
  el.attrs.lookup k

/-- The error enum `WinToastError` from `src/lib.rs`. The `Os` payload is
the raw HRESULT, modelled as an integer; the `Io` payload is elided. -/
inductive WinToastError where
  | Os (code : Int)
  | Io
  | InvalidPath
  | InvalidDismissalReason
  | Unknown
deriving Repr, DecidableEq

/-- The crate's `Result` alias from `src/lib.rs`. -/
abbrev WResult (α : Type) := Except WinToastError α

/- ===== src/content/audio.rs ===== -/

/-- The `LoopingSound` enum from `src/content/audio.rs`. -/
inductive LoopingSound where
  | Alarm | Alarm2 | Alarm3 | Alarm4 | Alarm5
  | Alarm6 | Alarm7 | Alarm8 | Alarm9 | Alarm10
  | Call | Call2 | Call3 | Call4 | Call5
  | Call6 | Call7 | Call8 | Call9 | Call10
deriving Repr, DecidableEq

/-- `LoopingSound::as_str` from `src/content/audio.rs`. -/
def LoopingSound.as_str : LoopingSound → String
  | .Alarm => "Alarm"
  | .Alarm2 => "Alarm2"
  | .Alarm3 => "Alarm3"
  | .Alarm4 => "Alarm4"
  | .Alarm5 => "Alarm5"
  | .Alarm6 => "Alarm6"
  | .Alarm7 => "Alarm7"
  | .Alarm8 => "Alarm8"
  | .Alarm9 => "Alarm9"
  | .Alarm10 => "Alarm10"
  | .Call => "Call"
  | .Call2 => "Call2"
  | .Call3 => "Call3"
  | .Call4 => "Call4"
  | .Call5 => "Call5"
  | .Call6 => "Call6"
  | .Call7 => "Call7"
  | .Call8 => "Call8"
  | .Call9 => "Call9"
  | .Call10 => "Call10"

/-- The `Sound` enum from `src/content/audio.rs`. -/
inductive Sound where
  | Default
  | IM
  | Mail
  | Reminder
  | SMS
  | Looping (s : LoopingSound)
  | None
deriving Repr, DecidableEq

/-- `Sound::as_str` from `src/content/audio.rs`. -/
def Sound.as_str : Sound → String
  | .Default => "Default"
  | .IM => "IM"
  | .Mail => "Mail"
  | .Reminder => "Reminder"
  | .SMS => "SMS"
  | .Looping s => s.as_str
  | .None => ""

/-- The `Audio` struct from `src/content/audio.rs`. -/
structure Audio where
  src : Sound
  loop_ : Bool
  silent : Bool
deriving Repr, DecidableEq

/-- `Audio::new` from `src/content/audio.rs`. -/
def Audio.new (src : Sound) : Audio :=
  { src := src, loop_ := false, silent := false }

/-- `Audio::with_looping` from `src/content/audio.rs`. -/
def Audio.with_looping (a : Audio) : Audio := { a with loop_ := true }

/-- `Audio::with_silent` from `src/content/audio.rs`. -/
def Audio.with_silent (a : Audio) : Audio := { a with silent := true }

/-- `Audio::write_to_element` from `src/content/audio.rs`, as the ordered
list of attributes it sets on the `audio` element. -/
def Audio.write_to_element (a : Audio) : List (String × String) :=
  let silent' := match a.src with
    | Sound.None => true
    | _ => a.silent
  let srcAttrs := match a.src with
    | Sound.None => []
    | Sound.Looping s =>
        [("src", "ms-winsoundevent:Notification.Looping." ++ s.as_str)]
    | _ => [("src", "ms-winsoundevent:Notification." ++ a.src.as_str)]
  srcAttrs ++
    [("loop", if a.loop_ then "true" else "false"),
     ("silent", if silent' then "true" else "false")]

/- ===== src/content/action.rs ===== -/

/-- The `ActivationType` enum from `src/content/action.rs`. -/
inductive ActivationType where
  | Foreground
  | Background
  | Protocol
deriving Repr, DecidableEq

/-- `ActivationType::as_str` from `src/content/action.rs`. -/
def ActivationType.as_str : ActivationType → String
  | .Foreground => "foreground"
  | .Background => "background"
  | .Protocol => "protocol"

/-- The `ActionPlacement` enum from `src/content/action.rs`. -/
inductive ActionPlacement where
  | ContextMenu
deriving Repr, DecidableEq

/-- `ActionPlacement::as_str` from `src/content/action.rs`. -/
def ActionPlacement.as_str : ActionPlacement → String
  | .ContextMenu => "contextMenu"

/-- The `HintButtonStyle` enum from `src/content/action.rs`. -/
inductive HintButtonStyle where
  | Success
  | Critical
deriving Repr, DecidableEq

/-- `HintButtonStyle::as_str` from `src/content/action.rs`. -/
def HintButtonStyle.as_str : HintButtonStyle → String
  | .Success => "Success"
  | .Critical => "Critical"

/-- The `Action` struct from `src/content/action.rs`. -/
structure Action where
  content : String
  arguments : String
  type : String
  activation_type : Option ActivationType
  placement : Option ActionPlacement
  input_id : Option String
  button_style : Option HintButtonStyle
deriving Repr, DecidableEq

/-- `Action::new` from `src/content/action.rs`. -/
def Action.new (content arguments typ : String) : Action :=
  { content := content, arguments := arguments, type := typ,
    activation_type := none, placement := none,
    button_style := none, input_id := none }

/-- `Action::write_to_element` from `src/content/action.rs`, as the ordered
list of attributes it sets on the `action` element. -/
def Action.write_to_element (a : Action) : List (String × String) :=
  [("content", a.content), ("arguments", a.arguments), ("type", a.type)] ++
  (match a.activation_type with
    | some t => [("activationType", t.as_str)]
    | none => []) ++
  (match a.placement with
    | some p => [("placement", p.as_str)]
    | none => []) ++
  (match a.button_style with
    | some b => [("hint-buttonStyle", b.as_str)]
    | none => []) ++
  (match a.input_id with
    | some i => [("hint-inputId", i)]
    | none => [])

/- ===== src/content/input.rs ===== -/

/-- The `InputType` enum from `src/content/input.rs`. -/
inductive InputType where
  | Text
  | Selection
deriving Repr, DecidableEq

/-- `InputType::as_str` from `src/content/input.rs`. -/
def InputType.as_str : InputType → String
  | .Text => "text"
  | .Selection => "selection"

/-- The `Input` struct from `src/content/input.rs`. -/
structure Input where
  id : String
  type_ : InputType
  place_holder : Option String
  title : Option String
  default_input : Option String
deriving Repr, DecidableEq

/-- `Input::write_to_element` from `src/content/input.rs`, as the ordered
list of attributes it sets on the `input` element. -/
def Input.write_to_element (i : Input) : List (String × String) :=
  [("id", i.id), ("type", i.type_.as_str)] ++
  (match i.place_holder with
    | some p => [("placeHolderContent", p)]
    | none => []) ++
  (match i.title with
    | some t => [("title", t)]
    | none => []) ++
  (match i.default_input with
    | some d => [("defaultInput", d)]
    | none => [])

/-- The `Selection` struct from `src/content/input.rs`. -/
structure Selection where
  id : String
  content : String
deriving Repr, DecidableEq

/-- `Selection::write_to_element` from `src/content/input.rs`. -/
def Selection.write_to_element (s : Selection) : List (String × String) :=
  [("id", s.id), ("content", s.content)]

/- ===== Content types whose source file is absent from src/ ===== -/

/-- Modelled from the spec: the text placement enum of `src/content/text.rs`
(the file is absent from src/); the spec gives a default body position and
an attribution position. -/
inductive TextPlacement where
  | Attribution
deriving Repr, DecidableEq

/-- Modelled from the spec: `TextPlacement` serialization token (the spec
says enumerations serialize to fixed tokens; the attribution position uses
its lowercase name). -/
def TextPlacement.as_str : TextPlacement → String
  | .Attribution => "attribution"

/-- Modelled from the spec: the `Text` entity of `src/content/text.rs` (the
file is absent from src/): string content plus optional placement. -/
structure Text where
  content : String
  placement : Option TextPlacement
deriving Repr, DecidableEq

/-- Modelled from the spec: `Text::write_to_element` of
`src/content/text.rs` (the file is absent from src/). The spec says a text
element serializes its positional `id` (1..3, supplied by the container)
plus a placement attribute, present only when explicitly set; the content
is the element body. -/
def Text.write_to_element (index : Nat) (t : Text) : List (String × String) :=
  [("id", toString index)] ++
  (match t.placement with
    | some p => [("placement", p.as_str)]
    | none => [])

/-- Modelled from the spec: the image placement enum of
`src/content/image.rs` (the file is absent from src/): hero,
app-logo-override or generic (absent). -/
inductive ImagePlacement where
  | Hero
  | AppLogoOverride
deriving Repr, DecidableEq

/-- Modelled from the spec: `ImagePlacement` serialization token. -/
def ImagePlacement.as_str : ImagePlacement → String
  | .Hero => "hero"
  | .AppLogoOverride => "appLogoOverride"

/-- Modelled from the spec: the circular-crop hint of
`src/content/image.rs` (the file is absent from src/). -/
inductive ImageHintCrop where
  | Circle
deriving Repr, DecidableEq

/-- Modelled from the spec: `ImageHintCrop` serialization token. -/
def ImageHintCrop.as_str : ImageHintCrop → String
  | .Circle => "circle"

/-- Modelled from the spec: the `Image` entity of `src/content/image.rs`
(the file is absent from src/): a source reference (already validated and
converted to a URI string at construction), optional placement, optional
circular-crop hint. -/
structure Image where
  src : String
  placement : Option ImagePlacement
  hint_crop : Option ImageHintCrop
deriving Repr, DecidableEq

/-- Modelled from the spec: `Image::write_to_element` of
`src/content/image.rs` (the file is absent from src/). The spec says an
image serializes its positional `id` (the slot id, supplied by the
container) plus source and the optional placement/crop attributes. -/
def Image.write_to_element (id : Nat) (img : Image) : List (String × String) :=
  [("id", toString id), ("src", img.src)] ++
  (match img.placement with
    | some p => [("placement", p.as_str)]
    | none => []) ++
  (match img.hint_crop with
    | some c => [("hint-crop", c.as_str)]
    | none => [])

/-- Modelled from the spec: the `Header` entity of `src/content/header.rs`
(the file is absent from src/); the spec treats it as an opaque
pass-through entity in the serializer, so it is modelled as the attribute
list its `write_to_element` emits. -/
structure Header where
  attrs : List (String × String)
deriving Repr, DecidableEq

/-- Modelled from the spec: the `Toast` aggregate of `src/toast.rs` (the
file is absent from src/). Field presence and types follow the spec's data
model and the field accesses in `ToastManager::show` (`src/manager.rs`):
three optional text slots, an ordered mapping of image slot-id to `Image`
(iterated in slot-id order; modelled as an association list in iteration
order), optional audio/header/input, a selection list and an action list in
insertion order, identity strings, and enumerated attributes already
rendered to their serialization tokens. -/
structure Toast where
  text : Option Text × Option Text × Option Text
  images : List (Nat × Image)
  audio : Option Audio
  header : Option Header
  input : Option Input
  selections : List Selection
  actions : List Action
  tag : Option String
  group : Option String
  remote_id : Option String
  duration : Option String
  scenario : Option String
  launch : Option String
  use_button_style : Option String
  expires_in : Option Nat

/- ===== The serializer: ToastManager::show, src/manager.rs lines 300-440 ===== -/

/-- The sequence of child elements appended to the `binding` element by
`ToastManager::show` (`src/manager.rs` lines 341-363): one `text` element
per set text slot, written with indices 1, 2, 3 in that order, then one
`image` element per entry of the image mapping, in iteration order. -/
def bindingChildren (toast : Toast) : List XmlElement :=
  (match toast.text.1 with
    | some t => [XmlElement.mk "text" (Text.write_to_element 1 t) [] t.content]
    | none => []) ++
  (match toast.text.2.1 with
    | some t => [XmlElement.mk "text" (Text.write_to_element 2 t) [] t.content]
    | none => []) ++
  (match toast.text.2.2 with
    | some t => [XmlElement.mk "text" (Text.write_to_element 3 t) [] t.content]
    | none => []) ++
  toast.images.map (fun p =>
    XmlElement.mk "image" (Image.write_to_element p.1 p.2) [] "")

/-- The `actions` element built by `ToastManager::show` (`src/manager.rs`
lines 376-402): created only when an input is present or the action list is
non-empty; its children are the optional `input` element (with one
`selection` child per selection, in order) followed by one `action` element
per action, in order. -/
def actionsElement (toast : Toast) : Option XmlElement :=
  if toast.input.isSome ∨ toast.actions ≠ [] then
    some (XmlElement.mk "actions" []
      ((match toast.input with
        | some i =>
            [XmlElement.mk "input" i.write_to_element
              (toast.selections.map (fun s =>
                XmlElement.mk "selection" s.write_to_element [] ""))
              ""]
        | none => []) ++
       toast.actions.map (fun a =>
         XmlElement.mk "action" a.write_to_element [] ""))
      "")
  else
    none

/-- The toast document built by `ToastManager::show` (`src/manager.rs`
lines 304-403): the root `toast` element with its optional attributes set
in order, then the optional `header`, the `visual`/`binding` subtree, the
optional `audio` element, and the optional `actions` element. -/
def toastDocument (toast : Toast) : XmlElement :=
  XmlElement.mk "toast"
    ((match toast.scenario with
      | some s => [("scenario", s)]
      | none => []) ++
     (match toast.launch with
      | some l => [("launch", l)]
      | none => []) ++
     (match toast.duration with
      | some d => [("duration", d)]
      | none => []) ++
     (match toast.use_button_style with
      | some u => [("useButtonStyle", u)]
      | none => []))
    ((match toast.header with
      | some h => [XmlElement.mk "header" h.attrs [] ""]
      | none => []) ++
     [XmlElement.mk "visual" []
       [XmlElement.mk "binding" [("template", "ToastGeneric")]
         (bindingChildren toast) ""]
       ""] ++
     (match toast.audio with
      | some a => [XmlElement.mk "audio" a.write_to_element [] ""]
      | none => []) ++
     (match actionsElement toast with
      | some el => [el]
      | none => []))
    ""

/- ===== Event payloads (platform boundary, src/manager.rs) ===== -/

/-- The `ToastNotification` platform object as the event translators read
it: only `Tag()` is consulted, and a failing call is folded into `none`. -/
structure ToastNotificationM where
  tag : Option String

/-- One key/value pair of the activation event's `UserInput` value set.
`key` is `pair.Key()` folded to `none` on failure; `value_str` is
`pair.Value()` followed by the cast to `IReference<HSTRING>` and its
`Value()` call, folded to `none` if any of the three steps fails. -/
structure ValueSetPair where
  key : Option String
  value_str : Option String

/-- The `ToastActivatedEventArgs` platform payload: the `Arguments()`
string (folded to `none` on failure) and the `UserInput()` value-set
(folded to `none` on failure). -/
structure ToastActivatedEventArgsM where
  arguments : Option String
  userInput : Option (List ValueSetPair)

/-- The `IInspectable` payload of an activation event, as
`get_activated_action` consumes it: `none` when the payload is absent; when
present, the inner option is the result of the cast to
`ToastActivatedEventArgs` (`none` when the cast fails). -/
def IInspectableM := Option ToastActivatedEventArgsM

/-- The `ToastDismissedEventArgs` platform payload: the `Reason()` call's
result, folded to `none` on failure. Platform reason codes are the WinRT
enum's i32 values. -/
structure ToastDismissedEventArgsM where
  reason : Option Int

/-- The `ToastFailedEventArgs` platform payload: the `ErrorCode()` call's
result (an HRESULT, modelled as an integer), folded to `none` on failure. -/
structure ToastFailedEventArgsM where
  errorCode : Option Int

/-- The `ActivatedAction` struct from `src/manager.rs`. `values` is a Rust
`HashMap` built by `collect`; it is modelled as the association list of
inserted pairs, in insertion order. -/
structure ActivatedAction where
  tag : Option String
  arg : String
  values : List (String × String)
  input_id : Option String

/-- The `DismissalReason` enum from `src/manager.rs`. -/
inductive DismissalReason where
  | UserCanceled
  | ApplicationHidden
  | TimedOut
deriving Repr, DecidableEq

/-- The WinRT `ToastDismissalReason::UserCanceled` constant (i32 value 0). -/
def ToastDismissalReason.UserCanceled : Int := 0

/-- The WinRT `ToastDismissalReason::ApplicationHidden` constant (i32 value 1). -/
def ToastDismissalReason.ApplicationHidden : Int := 1

/-- The WinRT `ToastDismissalReason::TimedOut` constant (i32 value 2). -/
def ToastDismissalReason.TimedOut : Int := 2

/-- `DismissalReason::from_winrt` from `src/manager.rs` lines 68-77: the
three recognized WinRT codes map to the three variants, anything else is an
`InvalidDismissalReason` error. -/
def DismissalReason.from_winrt (reason : Int) : WResult DismissalReason :=
  if reason = ToastDismissalReason.UserCanceled then
    .ok DismissalReason.UserCanceled
  else if reason = ToastDismissalReason.ApplicationHidden then
    .ok DismissalReason.ApplicationHidden
  else if reason = ToastDismissalReason.TimedOut then
    .ok DismissalReason.TimedOut
  else
    .error WinToastError.InvalidDismissalReason

/-- The `ToastDismissed` struct from `src/manager.rs`. -/
structure ToastDismissed where
  tag : Option String
  reason : DismissalReason

/-- The `ToastFailed` struct from `src/manager.rs`. -/
structure ToastFailed where
  tag : Option String
  error : WinToastError

namespace ToastManager

/-- `ToastManager::get_activated_action` from `src/manager.rs` lines
184-233: read the tag; cast the payload; take the button argument only if
the call succeeds and the string is non-empty; build the submitted-values
list keeping the pairs whose key and value extractions succeed and whose
value string is non-empty; return `none` exactly when no (non-empty)
button argument was obtained. -/
def get_activated_action (toast : Option ToastNotificationM)
    (inspect : Option IInspectableM) (input_id : Option String) :
    Option ActivatedAction :=
  let tag := toast.bind (fun t => t.tag)
  let args : Option ToastActivatedEventArgsM :=
    inspect.bind (fun i => (i : Option ToastActivatedEventArgsM))
  let button_arg :=
    (args.bind (fun a => a.arguments)).filter (fun s => ¬ s.isEmpty)
  let user_input : List (String × String) :=
    ((args.bind (fun a => a.userInput)).map (fun value_set =>
      value_set.filterMap (fun pair =>
        match pair.key, pair.value_str with
        | some k, some v => if ¬ v.isEmpty then some (k, v) else none
        | _, _ => none))).getD []
  button_arg.map (fun arg =>
    { tag := tag, arg := arg, values := user_input, input_id := input_id })

/-- `ToastManager::get_dismissal_reason` from `src/manager.rs` lines
249-266: read the tag; an absent payload or failing `Reason()` call is an
`InvalidDismissalReason` error, otherwise the WinRT code is translated by
`DismissalReason::from_winrt`. -/
def get_dismissal_reason (toast : Option ToastNotificationM)
    (args : Option ToastDismissedEventArgsM) : WResult ToastDismissed :=
  let tag := toast.bind (fun t => t.tag)
  match args.bind (fun a => a.reason) with
  | none => .error WinToastError.InvalidDismissalReason
  | some winrt_reason =>
      (DismissalReason.from_winrt winrt_reason).map
        (fun reason => { tag := tag, reason := reason })

/-- `ToastManager::get_failed_error` from `src/manager.rs` lines 282-298:
read the tag; if the payload is present, its `ErrorCode()` call succeeds
and the HRESULT reports an actual error (`is_err`, i.e. negative), wrap it
as an OS error; otherwise fall back to `Unknown`. The function always
returns a `ToastFailed`. -/
def get_failed_error (toast : Option ToastNotificationM)
    (args : Option ToastFailedEventArgsM) : ToastFailed :=
  let tag := toast.bind (fun t => t.tag)
  let error :=
    ((((args.bind (fun e => e.errorCode)).filter (fun e => e < 0)).map
      (fun e => WinToastError.Os e)).getD WinToastError.Unknown)
  { tag := tag, error := error }

end ToastManager

/-- The `ToastManager` struct from `src/manager.rs`. Each handler slot
stores the semantics of the registered `TypedEventHandler` closure: the
function from the raw platform event pair to the callback invocation,
`ρ` being the caller callback's observable effect. -/
structure ToastManager (ρ : Type) where
  app_id : String
  activatedSlot : Option (Option ToastNotificationM → Option IInspectableM → ρ)
  dismissedSlot : Option (Option ToastNotificationM → Option ToastDismissedEventArgsM → ρ)
  failedSlot : Option (Option ToastNotificationM → Option ToastFailedEventArgsM → ρ)

namespace ToastManager

/-- `ToastManager::new` from `src/manager.rs` lines 124-131. -/
def new (ρ : Type) (aum_id : String) : ToastManager ρ :=
  { app_id := aum_id, activatedSlot := none,
    dismissedSlot := none, failedSlot := none }

/-- `ToastManager::on_activated` from `src/manager.rs` lines 170-182: store
a handler that invokes the callback `f` on
`get_activated_action tn args input_id`, replacing any previous activated
handler, and return the manager. -/
def on_activated {ρ : Type} (m : ToastManager ρ) (input_id : Option String)
    (f : Option ActivatedAction → ρ) : ToastManager ρ :=
  { m with activatedSlot :=
      (some (fun tn args => f (get_activated_action tn args input_id))) }

/-- `ToastManager::on_dismissed` from `src/manager.rs` lines 236-247: store
a handler that invokes the callback `f` on the `Result` produced by
`get_dismissal_reason tn args`, replacing any previous dismissed handler,
and return the manager. -/
def on_dismissed {ρ : Type} (m : ToastManager ρ)
    (f : WResult ToastDismissed → ρ) : ToastManager ρ :=
  { m with dismissedSlot :=
      (some (fun tn args => f (get_dismissal_reason tn args))) }

/-- `ToastManager::on_failed` from `src/manager.rs` lines 269-280: store a
handler that invokes the callback `f` on `get_failed_error tn args`,
replacing any previous failed handler, and return the manager. -/
def on_failed {ρ : Type} (m : ToastManager ρ)
    (f : ToastFailed → ρ) : ToastManager ρ :=
  { m with failedSlot :=
      (some (fun tn args => f (get_failed_error tn args))) }

end ToastManager

/-- The submitted-values list of an activation translation result, `[]`
when the translation yields no action. -/
def activatedValues (toast : Option ToastNotificationM)
    (inspect : Option IInspectableM) (input_id : Option String) :
    List (String × String) :=
  ((ToastManager.get_activated_action toast inspect input_id).map
    (fun a => a.values)).getD []

/-- A toast with no content, used to instantiate serializer claims at
concrete inputs. -/
def emptyToast : Toast :=
  { text := (none, none, none), images := [], audio := none, header := none,
    input := none, selections := [], actions := [], tag := none, group := none,
    remote_id := none, duration := none, scenario := none, launch := none,
    use_button_style := none, expires_in := none }

/- ===== Claims ===== -/

/-- C1 counterexample: the claim says every entry with an empty key is
excluded from `ActivatedAction.values`, but `get_activated_action` filters
only on the value string: for a payload with argument `"a"` and a
submitted-values collection holding the single pair `("", "v")`, the
resulting mapping contains the empty-key entry `("", "v")`. -/
theorem get_activated_action_keeps_empty_key :
    ToastManager.get_activated_action none
      (some (some { arguments := some "a",
                    userInput := some [{ key := some "", value_str := some "v" }] }))
      none =
      some { tag := none, arg := "a", values := [("", "v")], input_id := none } ∧
    ("", "v") ∈ activatedValues none
      (some (some { arguments := some "a",
                    userInput := some [{ key := some "", value_str := some "v" }] }))
      none :=
  ⟨rfl, by decide⟩

/-- Shape of the submitted-values list for a castable payload with a
non-empty argument: the per-pair extraction of `get_activated_action`
applied across the collection. -/
theorem activatedValues_eq (toast : Option ToastNotificationM)
    (vs : List ValueSetPair) (ui : Option String) (s : String)
    (hs : s.isEmpty = false) :
    activatedValues toast
        (some (some { arguments := some s, userInput := some vs })) ui =
      vs.filterMap (fun pair =>
        match pair.key, pair.value_str with
        | some k, some v => if ¬ v.isEmpty then some (k, v) else none
        | _, _ => none) := by
  simp [activatedValues, ToastManager.get_activated_action, Option.filter, hs]

/-- Pointwise characterization of the per-pair extraction inside
`get_activated_action`: a pair contributes the entry `(k, v)` exactly when
both platform reads succeed with those strings and `v` is non-empty. -/
theorem extract_eq_some_iff (pk pv : Option String) (k v : String) :
    (match pk, pv with
      | some k', some v' => if ¬ v'.isEmpty then some (k', v') else none
      | _, _ => (none : Option (String × String))) = some (k, v) ↔
      (pk = some k ∧ pv = some v ∧ v.isEmpty = false) := by
  rcases pk with _ | k₀ <;> rcases pv with _ | v₀ <;> simp
  by_cases h : v₀.isEmpty <;> simp [h]
  · rintro rfl rfl
    simp [h]
  · exact fun _ h' => h' ▸ (Bool.not_eq_true _ ▸ h)

/-- C1 (amended): for an activation payload with a non-empty argument
string and a submitted-values collection, the resulting mapping contains
exactly those entries of the collection whose key and value extractions
succeed and whose string value is non-empty; entries with an empty value
are excluded, but an empty key is not filtered. -/
theorem activatedValues_mem_iff (toast : Option ToastNotificationM)
    (vs : List ValueSetPair) (ui : Option String) (s k v : String)
    (hs : s.isEmpty = false) :
    ((k, v) ∈ activatedValues toast
        (some (some { arguments := some s, userInput := some vs })) ui) ↔
      ((∃ p ∈ vs, p.key = some k ∧ p.value_str = some v) ∧ v.isEmpty = false) := by
  rw [activatedValues_eq toast vs ui s hs, List.mem_filterMap]
  constructor
  · rintro ⟨p, hp, hf⟩
    rcases (extract_eq_some_iff p.key p.value_str k v).mp hf with ⟨hk, hv, hne⟩
    exact ⟨⟨p, hp, hk, hv⟩, hne⟩
  · rintro ⟨⟨p, hp, hk, hv⟩, hne⟩
    exact ⟨p, hp, (extract_eq_some_iff p.key p.value_str k v).mpr ⟨hk, hv, hne⟩⟩

/-- C1 amended claim at a concrete input: with argument `"go"` and pairs
`("id1", "hello")` and `("id2", "")`, exactly the first pair appears. -/
theorem activatedValues_mem_iff_witness :
    (("id1", "hello") ∈ activatedValues none
      (some (some { arguments := some "go",
                    userInput := some [{ key := some "id1", value_str := some "hello" },
                                       { key := some "id2", value_str := some "" }] }))
      none) ∧
    ¬ (("id2", "") ∈ activatedValues none
      (some (some { arguments := some "go",
                    userInput := some [{ key := some "id1", value_str := some "hello" },
                                       { key := some "id2", value_str := some "" }] }))
      none) := by
  constructor
  · exact (activatedValues_mem_iff none
      [{ key := some "id1", value_str := some "hello" },
       { key := some "id2", value_str := some "" }] none "go" "id1" "hello"
      (by decide)).mpr
      ⟨⟨{ key := some "id1", value_str := some "hello" }, by simp, rfl, rfl⟩, by decide⟩
  · intro hmem
    have h := (activatedValues_mem_iff none
      [{ key := some "id1", value_str := some "hello" },
       { key := some "id2", value_str := some "" }] none "go" "id2" ""
      (by decide)).mp hmem
    exact absurd h.2 (by decide)

/-- C2: the activation translation yields no action when the payload is
absent, uncastable, or carries an absent or empty argument string; for a
non-empty argument it yields an action whose `arg` is that string and
whose `input_id` is exactly the caller-supplied context, for every event. -/
theorem get_activated_action_outcome :
    (∀ t iid, ToastManager.get_activated_action t none iid = none) ∧
    (∀ t iid, ToastManager.get_activated_action t (some none) iid = none) ∧
    (∀ t iid ui, ToastManager.get_activated_action t
      (some (some { arguments := none, userInput := ui })) iid = none) ∧
    (∀ t iid ui, ToastManager.get_activated_action t
      (some (some { arguments := some "", userInput := ui })) iid = none) ∧
    (∀ t iid ui s, s.isEmpty = false →
      (ToastManager.get_activated_action t
        (some (some { arguments := some s, userInput := ui })) iid).map
          (fun a => a.arg) = some s ∧
      (ToastManager.get_activated_action t
        (some (some { arguments := some s, userInput := ui })) iid).map
          (fun a => a.input_id) = some iid) := by
  refine ⟨fun t iid => rfl, fun t iid => rfl, fun t iid ui => rfl,
    fun t iid ui => rfl, fun t iid ui s hs => ?_⟩
  constructor <;>
    simp [ToastManager.get_activated_action, Option.filter, hs]

/-- C2 at a concrete input: argument `"yes"` with input-id context
`some "box"` yields an action carrying exactly those. -/
theorem get_activated_action_outcome_witness :
    (ToastManager.get_activated_action none
      (some (some { arguments := some "yes", userInput := none })) (some "box")).map
        (fun a => a.arg) = some "yes" ∧
    (ToastManager.get_activated_action none
      (some (some { arguments := some "yes", userInput := none })) (some "box")).map
        (fun a => a.input_id) = some (some "box") :=
  get_activated_action_outcome.2.2.2.2 none (some "box") none "yes" (by decide)

/-- C3: each recognized platform reason code maps 1:1 to its named
`DismissalReason` variant; an absent payload, a failing reason read, or a
code outside the three known values yields an `InvalidDismissalReason`
error value; and the registered dismissal handler receives exactly the
`Result` of `get_dismissal_reason` — the failure is delivered to the
callback, not a silent default. -/
theorem dismissal_reason_mapping :
    (DismissalReason.from_winrt ToastDismissalReason.UserCanceled =
      .ok DismissalReason.UserCanceled) ∧
    (DismissalReason.from_winrt ToastDismissalReason.ApplicationHidden =
      .ok DismissalReason.ApplicationHidden) ∧
    (DismissalReason.from_winrt ToastDismissalReason.TimedOut =
      .ok DismissalReason.TimedOut) ∧
    (∀ r : Int, r ≠ ToastDismissalReason.UserCanceled →
      r ≠ ToastDismissalReason.ApplicationHidden →
      r ≠ ToastDismissalReason.TimedOut →
      DismissalReason.from_winrt r = .error WinToastError.InvalidDismissalReason) ∧
    (∀ t, ToastManager.get_dismissal_reason t none =
      .error WinToastError.InvalidDismissalReason) ∧
    (∀ t, ToastManager.get_dismissal_reason t (some { reason := none }) =
      .error WinToastError.InvalidDismissalReason) ∧
    (∀ t (r : Int), r ≠ ToastDismissalReason.UserCanceled →
      r ≠ ToastDismissalReason.ApplicationHidden →
      r ≠ ToastDismissalReason.TimedOut →
      ToastManager.get_dismissal_reason t (some { reason := some r }) =
        .error WinToastError.InvalidDismissalReason) ∧
    (∀ (ρ : Type) (m : ToastManager ρ) (f : WResult ToastDismissed → ρ)
        (h : Option ToastNotificationM → Option ToastDismissedEventArgsM → ρ),
      (m.on_dismissed f).dismissedSlot = some h →
      ∀ tn args, h tn args = f (ToastManager.get_dismissal_reason tn args)) := by
  refine ⟨rfl, rfl, rfl, fun r h0 h1 h2 => ?_, fun t => rfl, fun t => rfl,
    fun t r h0 h1 h2 => ?_, fun ρ m f h hslot tn args => ?_⟩
  · simp [DismissalReason.from_winrt, h0, h1, h2]
  · simp [ToastManager.get_dismissal_reason, DismissalReason.from_winrt, h0, h1, h2,
      Except.map]
  · rcases Option.some.inj hslot with rfl
    rfl

/-- C3 at concrete inputs: the unrecognized code 7 and an absent reason are
both translated to the `InvalidDismissalReason` failure, and a registered
handler callback receives exactly that failure value for such an event. -/
theorem dismissal_reason_mapping_witness :
    (DismissalReason.from_winrt 7 = .error WinToastError.InvalidDismissalReason) ∧
    (ToastManager.get_dismissal_reason none (some { reason := some 7 }) =
      .error WinToastError.InvalidDismissalReason) ∧
    (ToastManager.get_dismissal_reason none none =
      .error WinToastError.InvalidDismissalReason) ∧
    (((ToastManager.new (WResult ToastDismissed) "app").on_dismissed id).dismissedSlot.map
        (fun h => h none (some { reason := some 7 })) =
      some (.error WinToastError.InvalidDismissalReason)) := by
  refine ⟨dismissal_reason_mapping.2.2.2.1 7 (by decide) (by decide) (by decide),
    dismissal_reason_mapping.2.2.2.2.2.2.1 none 7 (by decide) (by decide) (by decide),
    dismissal_reason_mapping.2.2.2.2.1 none, ?_⟩
  have hdeliver := dismissal_reason_mapping.2.2.2.2.2.2.2
    (WResult ToastDismissed) (ToastManager.new (WResult ToastDismissed) "app") id
    (fun tn args => id (ToastManager.get_dismissal_reason tn args)) rfl
    none (some { reason := some 7 })
  have hbad := dismissal_reason_mapping.2.2.2.2.2.2.1 none 7
    (by decide) (by decide) (by decide)
  exact congrArg some (hdeliver.trans (congrArg id hbad))

/-- C4: the failure translation is total by type (it returns a
`ToastFailed`, not a `Result`), and classifies: a present payload whose
error-code read succeeds with an HRESULT reporting an actual error (a
negative value) is wrapped as an OS-layer error; an absent payload, a
failing read, or a success HRESULT falls back to the `Unknown` error. -/
theorem failed_error_classification :
    (∀ t (e : Int), e < 0 →
      (ToastManager.get_failed_error t (some { errorCode := some e })).error =
        WinToastError.Os e) ∧
    (∀ t (e : Int), 0 ≤ e →
      (ToastManager.get_failed_error t (some { errorCode := some e })).error =
        WinToastError.Unknown) ∧
    (∀ t, (ToastManager.get_failed_error t (some { errorCode := none })).error =
      WinToastError.Unknown) ∧
    (∀ t, (ToastManager.get_failed_error t none).error = WinToastError.Unknown) := by
  refine ⟨fun t e he => ?_, fun t e he => ?_, fun t => rfl, fun t => rfl⟩
  · simp [ToastManager.get_failed_error, Option.filter, he]
  · simp [ToastManager.get_failed_error, Option.filter, not_lt.mpr he]

/-- C4 at concrete inputs: the failing HRESULT `-2147024891` (E_ACCESSDENIED)
is wrapped as an OS error, while the success HRESULT `0` yields `Unknown`. -/
theorem failed_error_classification_witness :
    ((ToastManager.get_failed_error none (some { errorCode := some (-2147024891) })).error =
      WinToastError.Os (-2147024891)) ∧
    ((ToastManager.get_failed_error none (some { errorCode := some 0 })).error =
      WinToastError.Unknown) :=
  ⟨failed_error_classification.1 none (-2147024891) (by decide),
   failed_error_classification.2.1 none 0 (by decide)⟩

/-- C5: audio serialization. A looping sound serializes `src` as
`ms-winsoundevent:Notification.Looping.<Name>`; a non-looping named sound
(any sound other than `None` and the looping family) serializes `src` as
`ms-winsoundevent:Notification.<Name>`; the "no sound" selection serializes
`silent` as the literal `"true"` regardless of the explicit silent flag;
and on every `Audio` the `loop` and `silent` attributes are the literal
`"true"`/`"false"` renderings of the effective flags. -/
theorem audio_serialization :
    (∀ (s : LoopingSound) (l si : Bool),
      (Audio.mk (Sound.Looping s) l si).write_to_element.lookup "src" =
        some ("ms-winsoundevent:Notification.Looping." ++ s.as_str)) ∧
    (∀ (snd : Sound) (l si : Bool), snd ≠ Sound.None →
      (∀ ls, snd ≠ Sound.Looping ls) →
      (Audio.mk snd l si).write_to_element.lookup "src" =
        some ("ms-winsoundevent:Notification." ++ snd.as_str)) ∧
    (∀ l si : Bool,
      (Audio.mk Sound.None l si).write_to_element.lookup "silent" = some "true") ∧
    (∀ a : Audio,
      a.write_to_element.lookup "loop" = some (if a.loop_ then "true" else "false")) ∧
    (∀ a : Audio,
      a.write_to_element.lookup "silent" =
        some (if a.src = Sound.None then "true"
              else if a.silent then "true" else "false")) := by
  refine ⟨fun s l si => ?_, fun snd l si h0 h1 => ?_, fun l si => ?_,
    fun a => ?_, fun a => ?_⟩
  · simp [Audio.write_to_element, List.lookup]
  · rcases snd with _ | _ | _ | _ | _ | ls | _ <;>
      first
      | exact absurd rfl h0
      | exact absurd rfl (h1 ls)
      | simp [Audio.write_to_element, Sound.as_str, List.lookup]
  · simp [Audio.write_to_element, List.lookup]
  · rcases a with ⟨snd, l, si⟩
    rcases snd with _ | _ | _ | _ | _ | ls | _ <;>
      simp [Audio.write_to_element, List.lookup]
  · rcases a with ⟨snd, l, si⟩
    rcases snd with _ | _ | _ | _ | _ | ls | _ <;>
      simp [Audio.write_to_element, List.lookup]

/-- C5 at concrete inputs: the looping call sound, the mail sound, and the
silent-forcing of "no sound" under an explicitly false silent flag. -/
theorem audio_serialization_witness :
    ((Audio.mk (Sound.Looping LoopingSound.Call2) false false).write_to_element.lookup
      "src" = some "ms-winsoundevent:Notification.Looping.Call2") ∧
    ((Audio.mk Sound.Mail false false).write_to_element.lookup "src" =
      some "ms-winsoundevent:Notification.Mail") ∧
    ((Audio.mk Sound.None false false).write_to_element.lookup "silent" =
      some "true") :=
  ⟨audio_serialization.1 LoopingSound.Call2 false false,
   audio_serialization.2.1 Sound.Mail false false (by decide)
     (fun ls => by simp),
   audio_serialization.2.2.1 false false⟩

/-- C9: action serialization always sets `content`, `arguments` and `type`
to the action's fields, sets `activationType`, `placement`,
`hint-buttonStyle` and `hint-inputId` exactly when the corresponding
optional field is set (serializing its token), and leaves the attribute
entirely absent — not an empty-string placeholder — when the field is
absent. -/
theorem action_serialization (a : Action) :
    a.write_to_element.lookup "content" = some a.content ∧
    a.write_to_element.lookup "arguments" = some a.arguments ∧
    a.write_to_element.lookup "type" = some a.type ∧
    a.write_to_element.lookup "activationType" =
      a.activation_type.map ActivationType.as_str ∧
    a.write_to_element.lookup "placement" = a.placement.map ActionPlacement.as_str ∧
    a.write_to_element.lookup "hint-buttonStyle" =
      a.button_style.map HintButtonStyle.as_str ∧
    a.write_to_element.lookup "hint-inputId" = a.input_id := by
  rcases a with ⟨c, ar, ty, at_, pl, iid, bs⟩
  rcases at_ with _ | at₀ <;> rcases pl with _ | pl₀ <;>
    rcases iid with _ | iid₀ <;> rcases bs with _ | bs₀ <;>
    simp [Action.write_to_element, List.lookup]

/-- C10: each registration call (`on_activated`, `on_dismissed`,
`on_failed`) replaces exactly its own handler slot with the single new
handler (an `Option` slot holds at most one handler, so registration
overwrites, never appends), returns the manager value for chaining, and
leaves the `app_id` identity string and the other two handler slots
unchanged. -/
theorem handler_registration_frame {ρ : Type} (m : ToastManager ρ)
    (iid : Option String) (fa : Option ActivatedAction → ρ)
    (fd : WResult ToastDismissed → ρ) (ff : ToastFailed → ρ) :
    ((m.on_activated iid fa).app_id = m.app_id ∧
     (m.on_activated iid fa).dismissedSlot = m.dismissedSlot ∧
     (m.on_activated iid fa).failedSlot = m.failedSlot ∧
     (m.on_activated iid fa).activatedSlot =
       some (fun tn args => fa (ToastManager.get_activated_action tn args iid))) ∧
    ((m.on_dismissed fd).app_id = m.app_id ∧
     (m.on_dismissed fd).activatedSlot = m.activatedSlot ∧
     (m.on_dismissed fd).failedSlot = m.failedSlot ∧
     (m.on_dismissed fd).dismissedSlot =
       some (fun tn args => fd (ToastManager.get_dismissal_reason tn args))) ∧
    ((m.on_failed ff).app_id = m.app_id ∧
     (m.on_failed ff).activatedSlot = m.activatedSlot ∧
     (m.on_failed ff).dismissedSlot = m.dismissedSlot ∧
     (m.on_failed ff).failedSlot =
       some (fun tn args => ff (ToastManager.get_failed_error tn args))) :=
  ⟨⟨rfl, rfl, rfl, rfl⟩, ⟨rfl, rfl, rfl, rfl⟩, ⟨rfl, rfl, rfl, rfl⟩⟩

/-- C6: with all three text slots set, the binding element's `text`
children are exactly three, in document order with positional indices 1, 2
and 3, and every serialized text carries a `placement` attribute exactly
when a placement was explicitly set. -/
theorem three_texts_serialization (t : Toast) (t1 t2 t3 : Text)
    (h1 : t.text.1 = some t1) (h2 : t.text.2.1 = some t2)
    (h3 : t.text.2.2 = some t3) :
    ((bindingChildren t).filter (fun el => el.name == "text") =
      [XmlElement.mk "text" (Text.write_to_element 1 t1) [] t1.content,
       XmlElement.mk "text" (Text.write_to_element 2 t2) [] t2.content,
       XmlElement.mk "text" (Text.write_to_element 3 t3) [] t3.content]) ∧
    (∀ (i : Nat) (tx : Text),
      (Text.write_to_element i tx).lookup "id" = some (toString i) ∧
      (Text.write_to_element i tx).lookup "placement" =
        tx.placement.map TextPlacement.as_str) := by
  constructor
  · simp [bindingChildren, h1, h2, h3, List.filter_append, XmlElement.name,
      List.filter_map]
  · intro i tx
    rcases tx with ⟨c, _ | pl⟩ <;>
      simp [Text.write_to_element, List.lookup]

/-- C6 at a concrete input: a title, a body and an attribution-placed third
line serialize to exactly three `text` elements with indices 1, 2, 3, the
placement attribute appearing only on the third. -/
theorem three_texts_serialization_witness :
    (bindingChildren { emptyToast with
        text := (some { content := "Title", placement := none },
                 some { content := "Body", placement := none },
                 some { content := "Via SMS",
                        placement := some TextPlacement.Attribution }) }).filter
      (fun el => el.name == "text") =
      [XmlElement.mk "text" [("id", "1")] [] "Title",
       XmlElement.mk "text" [("id", "2")] [] "Body",
       XmlElement.mk "text" [("id", "3"), ("placement", "attribution")] []
         "Via SMS"] :=
  (three_texts_serialization _
    { content := "Title", placement := none }
    { content := "Body", placement := none }
    { content := "Via SMS", placement := some TextPlacement.Attribution }
    rfl rfl rfl).1

/-- C7: a toast holding images at distinct slot ids serializes exactly one
`image` element per registered image — no duplicates, no drops — in the
mapping's iteration order, each carrying its own slot id as the positional
`id` attribute. -/
theorem images_serialization (t : Toast) (h : (t.images.map Prod.fst).Nodup) :
    ((bindingChildren t).filter (fun el => el.name == "image") =
      t.images.map (fun p =>
        XmlElement.mk "image" (Image.write_to_element p.1 p.2) [] "")) ∧
    (((bindingChildren t).filter (fun el => el.name == "image")).length =
      t.images.length) ∧
    (∀ p ∈ t.images,
      (Image.write_to_element p.1 p.2).lookup "id" = some (toString p.1)) := by
  have hfilter : (bindingChildren t).filter (fun el => el.name == "image") =
      t.images.map (fun p =>
        XmlElement.mk "image" (Image.write_to_element p.1 p.2) [] "") := by
    rcases t with ⟨⟨ot1, ot2, ot3⟩, imgs, rest⟩
    rcases ot1 with _ | x1 <;> rcases ot2 with _ | x2 <;> rcases ot3 with _ | x3 <;>
      simp [bindingChildren, List.filter_append, XmlElement.name,
        List.filter_map] <;>
      (congr 1; exact List.filter_eq_self.mpr (fun a _ => rfl))
  refine ⟨hfilter, by rw [hfilter]; exact List.length_map _ _, fun p hp => ?_⟩
  rcases p with ⟨i, img⟩
  rcases img with ⟨src, _ | pl, _ | cr⟩ <;>
    simp [Image.write_to_element, List.lookup]

/-- C7 at a concrete input: two images at slots 1 and 2 serialize to
exactly two `image` elements in slot order, with `id` attributes `"1"` and
`"2"`. -/
theorem images_serialization_witness :
    (bindingChildren { emptyToast with
        images := [(1, { src := "file:///a.png", placement := none,
                         hint_crop := none }),
                   (2, { src := "file:///b.png", placement := none,
                         hint_crop := none })] }).filter
      (fun el => el.name == "image") =
      [XmlElement.mk "image" [("id", "1"), ("src", "file:///a.png")] [] "",
       XmlElement.mk "image" [("id", "2"), ("src", "file:///b.png")] [] ""] ∧
    (Image.write_to_element 1
        { src := "file:///a.png", placement := none, hint_crop := none }).lookup
      "id" = some "1" :=
  ⟨(images_serialization _ (by decide)).1,
   (images_serialization { emptyToast with
      images := [(1, { src := "file:///a.png", placement := none,
                       hint_crop := none }),
                 (2, { src := "file:///b.png", placement := none,
                       hint_crop := none })] } (by decide)).2.2
     (1, { src := "file:///a.png", placement := none, hint_crop := none })
     (by decide)⟩

/-- C8: the serialized document contains an `actions` element exactly when
the toast has an input or a non-empty action list; when present, its
children are the optional `input` element (carrying the selections as
children, in insertion order) followed by the `action` elements in
insertion order. -/
theorem actions_element_serialization (t : Toast) :
    ((∃ el ∈ (toastDocument t).children, el.name = "actions") ↔
      (t.input.isSome ∨ t.actions ≠ [])) ∧
    (∀ el ∈ (toastDocument t).children, el.name = "actions" →
      el.children =
        (match t.input with
          | some i => [XmlElement.mk "input" i.write_to_element
              (t.selections.map (fun s =>
                XmlElement.mk "selection" s.write_to_element [] "")) ""]
          | none => []) ++
        t.actions.map (fun a =>
          XmlElement.mk "action" a.write_to_element [] "")) := by
  rcases t with ⟨txt, imgs, aud, hdr, inp, sels, acts, rest⟩
  by_cases hc : ((inp : Option Input).isSome ∨ acts ≠ ([] : List Action)) <;>
    rcases hdr with _ | h0 <;> rcases aud with _ | a0 <;>
    simp [toastDocument, actionsElement, hc, XmlElement.name, XmlElement.children]

/-- C8 at concrete inputs: a toast with an input and one action has an
`actions` element whose children are the input element followed by the
action element; the empty toast's document has no `actions` element. -/
theorem actions_element_serialization_witness :
    (∃ el ∈ (toastDocument { emptyToast with
        input := some { id := "box", type_ := InputType.Text,
                        place_holder := none, title := none,
                        default_input := none },
        actions := [Action.new "Yes" "yes" ""] }).children,
      el.name = "actions") ∧
    ((XmlElement.mk "actions" []
        [XmlElement.mk "input" [("id", "box"), ("type", "text")] [] "",
         XmlElement.mk "action" (Action.new "Yes" "yes" "").write_to_element [] ""]
        "").children =
      [XmlElement.mk "input" [("id", "box"), ("type", "text")] [] "",
       XmlElement.mk "action" (Action.new "Yes" "yes" "").write_to_element [] ""]) ∧
    ¬ (∃ el ∈ (toastDocument emptyToast).children, el.name = "actions") := by
  refine ⟨(actions_element_serialization _).1.mpr (Or.inl rfl), ?_, ?_⟩
  · exact (actions_element_serialization { emptyToast with
      input := some { id := "box", type_ := InputType.Text,
                      place_holder := none, title := none,
                      default_input := none },
      actions := [Action.new "Yes" "yes" ""] }).2
      (XmlElement.mk "actions" []
        [XmlElement.mk "input" [("id", "box"), ("type", "text")] [] "",
         XmlElement.mk "action" (Action.new "Yes" "yes" "").write_to_element [] ""]
        "")
      (by exact List.Mem.tail _ (List.Mem.head _)) rfl
  · intro hex
    rcases (actions_element_serialization emptyToast).1.mp hex with h | h
    · exact absurd h (by decide)
    · exact h rfl

end WinToast
